import Mathlib

/-!
Shallow embedding of the audio resampling pipeline (`lib/FoscamStream.js`)
and of the RTSP control-channel logic (`lib/RTSPClient.js`) of
homebridge-foscam-stream, together with proofs about the claims of the
specification.

Modelling conventions:
* PCM buffers are modelled as lists of 16-bit signed samples
  (`List Int`); one sample is two bytes, so the 960-byte talk frame is
  480 samples.  All buffer operations of the source are sample-aligned
  (offsets 960, 2, `increment` are even), so this is faithful.
* The speaker gain `self.speakerGain` (a JavaScript float computed as
  `Math.pow(10, gain / 20)`) is modelled as an exact rational; the
  floating-point expression `sum / divider * speakerGain` is modelled by
  exact rational arithmetic.
* JavaScript strings are modelled as `List Char`, `String.prototype.split`
  with a one-character separator as `jsSplitOnChar`, and `parseInt` (radix
  10, as applied to port numbers here) as `jsParseInt`.  JavaScript
  truthiness of the values involved (strings: nonempty; numbers: nonzero
  and not NaN, NaN being modelled as `Option.none`) is made explicit.
-/

/-- Clipping step of `FoscamStream.resample` (FoscamStream.js:187-190):
`if(sample > 0x7fff) sample = 0x7fff; else if(sample < -0x7fff) sample = -0x7fff;`. -/
def clip (sample : Int) : Int :=
  if 0x7fff < sample then 0x7fff
  else if sample < -0x7fff then -0x7fff
  else sample

/-- The scaled and rounded average of `FoscamStream.resample`
(FoscamStream.js:186): `Math.round(sum / divider * self.speakerGain)`,
with the gain an exact rational.  `Math.round x` is `Int.floor (x + 1/2)`,
and for a rational `q = n / d` with `d > 0` that floor is
`Int.fdiv (2 * n + d) (2 * d)`; here `n = sum * gain.num` and
`d = divider * gain.den`.  The equivalence with the floor form is proved
in `jsScaleRound_eq_floor` below. -/
def jsScaleRound (gain : ℚ) (divider : Nat) (sum : Int) : Int :=
  Int.fdiv (2 * sum * gain.num + (divider : Int) * (gain.den : Int))
    (2 * (divider : Int) * (gain.den : Int))

/-- Sum of one averaging window (FoscamStream.js:181-184):
`sum += samples.readInt16LE(i + (j * 2))` for `j = 0 .. divider-1`. -/
def chunkSum (window : List Int) : Int :=
  window.foldl (· + ·) 0

/-- The downsampling loop of `FoscamStream.resample`
(FoscamStream.js:177-196), by the number of remaining full windows.
The loop `for(i = 0; i <= (samples.length - increment); i += increment)`
(byte offsets, `increment = divider * 2`) runs exactly
`samples.length / divider` times (sample counts), each iteration emitting
the clipped, gain-scaled, rounded average of the next `divider` samples;
`samples.slice(i)` of the final `i` is the carry. -/
def downsampleGo (gain : ℚ) (divider : Nat) : Nat → List Int → List Int × List Int
  | 0, samples => ([], samples)
  | windows + 1, samples =>
    let rest := downsampleGo gain divider windows (samples.drop divider)
    (clip (jsScaleRound gain divider (chunkSum (samples.take divider))) :: rest.1, rest.2)

/-- The `inputRate > outputRate` branch of `FoscamStream.resample`
(FoscamStream.js:170-196): output samples and carry. -/
def downsample (gain : ℚ) (divider : Nat) (samples : List Int) : List Int × List Int :=
  downsampleGo gain divider (samples.length / divider) samples

/-- The `inputRate < outputRate` branch of `FoscamStream.resample`
(FoscamStream.js:197-213): every sample is written `multiplier` times,
in order. -/
def upsample (multiplier : Nat) (samples : List Int) : List Int :=
  (samples.map (List.replicate multiplier)).flatten

/-- The error value `{message: 'Cannot evenly resample.'}` thrown by
`FoscamStream.resample` (FoscamStream.js:173 and 200); the spec's
`UnsupportedRateError`. -/
inductive ResampleError where
  | unsupportedRate
  deriving DecidableEq

/-- `FoscamStream.resample` (FoscamStream.js:168-217).  The rate ratio
`inputRate / outputRate` (resp. `outputRate / inputRate`) is an integer
exactly when the divisibility check holds; that is the source's
`Math.floor(divider) != divider` test under exact arithmetic.  Returns
the output samples and the carry (`null` except on the downsampling
path, where it is `samples.slice(i)`). -/
def resample (gain : ℚ) (samples : List Int) (inputRate outputRate : Nat) :
    Except ResampleError (List Int × Option (List Int)) :=
  if outputRate < inputRate then
    if inputRate % outputRate ≠ 0 then .error .unsupportedRate
    else
      let r := downsample gain (inputRate / outputRate) samples
      .ok (r.1, some r.2)
  else if inputRate < outputRate then
    if outputRate % inputRate ≠ 0 then .error .unsupportedRate
    else .ok (upsample (outputRate / inputRate) samples, none)
  else .ok (samples, none)

instance {ε α : Type} [DecidableEq ε] [DecidableEq α] : DecidableEq (Except ε α) := fun a b =>
  match a, b with
  | .error e, .error f =>
    if h : e = f then .isTrue (by rw [h]) else .isFalse (by simp [h])
  | .ok x, .ok y =>
    if h : x = y then .isTrue (by rw [h]) else .isFalse (by simp [h])
  | .error _, .ok _ => .isFalse (by simp)
  | .ok _, .error _ => .isFalse (by simp)

/-- The fields of `FoscamStream` that `audioDataInput` and the stop
request touch: `talkStreamSetup`, `audioBuffer` (the resampling carry)
and `audioOutputBuffer` (the pending talk-frame bytes).  A JavaScript
`null` buffer is `none`. -/
structure StreamState where
  talkStreamSetup : Bool
  audioBuffer : Option (List Int)
  audioOutputBuffer : Option (List Int)
  deriving DecidableEq

/-- Outcome of one `audioDataInput` call: the new field values, the frame
passed to `sendTalkData` if any (the source calls `sendTalkData` at most
once per invocation), and the exception propagated out of `resample`
if one was thrown. -/
structure AudioInputResult where
  state : StreamState
  emitted : Option (List Int)
  thrown : Option ResampleError
  deriving DecidableEq

/-- The talk frame size in samples: 960 bytes of 16-bit PCM
(FoscamStream.js:238-246, "Foscam appears to be hardcoded for 60 ms,
8000 kHz"). -/
def frameSize : Nat := 480

/-- A JavaScript buffer-or-null read as a list of samples. -/
def bufferList : Option (List Int) → List Int
  | none => []
  | some l => l

/-- The carry prepend of `audioDataInput` (FoscamStream.js:224-225):
`if(self.audioBuffer && self.audioBuffer.length > 0)
samples = Buffer.concat([self.audioBuffer, samples])`. -/
def prependCarry (audioBuffer : Option (List Int)) (samples : List Int) : List Int :=
  match audioBuffer with
  | some b => if 0 < b.length then b ++ samples else samples
  | none => samples

/-- `FoscamStream.audioDataInput` (FoscamStream.js:219-249).
`outgoingSampleRate` is `self.transcoder.outgoingSampleRate`; the fixed
output rate is 8000.  If `resample` throws, the exception propagates and
no field has been assigned yet. -/
def audioDataInput (gain : ℚ) (outgoingSampleRate : Nat) (st : StreamState)
    (samples : List Int) : AudioInputResult :=
  if st.talkStreamSetup = false then ⟨st, none, none⟩
  else
    match resample gain (prependCarry st.audioBuffer samples) outgoingSampleRate 8000 with
    | .error e => ⟨st, none, some e⟩
    | .ok (res, carry) =>
      let output := match st.audioOutputBuffer with
        | some b => b ++ res
        | none => res
      if output.length < frameSize then
        ⟨⟨st.talkStreamSetup, carry, some output⟩, none, none⟩
      else
        let current := output.take frameSize
        let newOut := if frameSize < output.length then some (output.drop frameSize) else none
        ⟨⟨st.talkStreamSetup, carry, newOut⟩, some current, none⟩

/-- The speaker-enabled part of the `stop` branch of
`FoscamStream.handleStreamRequest` (FoscamStream.js:152-162): the stream
is closed and `audioBuffer`, `audioOutputBuffer` and `talkStreamSetup`
are cleared; no talk frame is sent.  The second component is the frame
emitted while stopping (there is none). -/
def stopStream (_st : StreamState) : StreamState × Option (List Int) :=
  (⟨false, none, none⟩, none)

/-- JavaScript `String.prototype.split` with a one-character separator.
An empty string splits into one empty field; the result is never the
empty list. -/
def jsSplitOnChar (sep : Char) : List Char → List (List Char)
  | [] => [[]]
  | c :: rest =>
    let r := jsSplitOnChar sep rest
    if c = sep then [] :: r
    else
      match r with
      | g :: gs => (c :: g) :: gs
      | [] => [[c]]

/-- JavaScript truthiness of a string-or-null value: `null`, `undefined`
and the empty string are falsy. -/
def jsTruthyStr : Option (List Char) → Bool
  | none => false
  | some s => !s.isEmpty

/-- JavaScript truthiness of a number-or-null value, with NaN modelled
as `none`: `null`, `NaN` and `0` are falsy. -/
def jsTruthyNum : Option Int → Bool
  | none => false
  | some n => n != 0

/-- Value of a decimal digit string, most significant first. -/
def digitsToNat (ds : List Char) : Nat :=
  ds.foldl (fun n c => n * 10 + (c.toNat - '0'.toNat)) 0

/-- The longest leading run of decimal digits, or `none` (NaN) when
there is none. -/
def jsParseDigits (cs : List Char) : Option Nat :=
  let ds := cs.takeWhile Char.isDigit
  if ds.isEmpty then none else some (digitsToNat ds)

/-- JavaScript `parseInt` as applied to the port fields here: leading
whitespace is skipped, an optional sign is read, then the longest
leading run of decimal digits; `none` is NaN.  (The `0x` hexadecimal
autodetection of `parseInt` is not modelled; no claim involves it.) -/
def jsParseInt (s : List Char) : Option Int :=
  match s.dropWhile Char.isWhitespace with
  | '-' :: rest => (jsParseDigits rest).map (fun n => -(n : Int))
  | '+' :: rest => (jsParseDigits rest).map (fun n => (n : Int))
  | other => (jsParseDigits other).map (fun n => (n : Int))

/-- One iteration of the transport parsing loop of `RTSPClient.setup`
(RTSPClient.js:252-267).  The accumulator is `(source, rtpPort,
rtcpPort)`.  `value.split('=', 2)` has length two exactly when the value
contains `=`, and its two elements are the first two fields of the full
split; likewise for `parts[1].split('-', 2)`. -/
def parseTransportValue (acc : Option (List Char) × Option Int × Option Int)
    (value : List Char) : Option (List Char) × Option Int × Option Int :=
  match jsSplitOnChar '=' value with
  | p0 :: p1 :: _ =>
    if p0 = "server_port".toList then
      match jsSplitOnChar '-' p1 with
      | q0 :: qrest =>
        let rtp := jsParseInt q0
        let rtcp :=
          match qrest with
          | q1 :: _ => jsParseInt q1
          | [] => rtp
        (acc.1, rtp, rtcp)
      | [] => (acc.1, none, none)
    else if p0 = "source".toList then (some p1, acc.2.1, acc.2.2)
    else acc
  | _ => acc

/-- The transport parsing loop of `RTSPClient.setup`
(RTSPClient.js:248-267): `source`, `rtpPort` and `rtcpPort` start as
`null` and are assigned by the semicolon-separated `key=value` entries
in order. -/
def parseTransport (transport : List Char) :
    Option (List Char) × Option Int × Option Int :=
  (jsSplitOnChar ';' transport).foldl parseTransportValue (none, none, none)

/-- The guard `if(source && rtpPort && rtcpPort)` of `RTSPClient.setup`
(RTSPClient.js:269). -/
def transportTruthy (p : Option (List Char) × Option Int × Option Int) : Bool :=
  jsTruthyStr p.1 && jsTruthyNum p.2.1 && jsTruthyNum p.2.2

/-- Outcome of the `dns.resolve(source, callback)` call of
`RTSPClient.setup` (RTSPClient.js:278): the callback receives a truthy
`err`, or an empty address list, or a nonempty address list. -/
inductive DnsOutcome where
  | error
  | noAddresses
  | ok (first : List Char) (rest : List (List Char))
  deriving DecidableEq

/-- How the promise returned by the `.then` continuation of
`RTSPClient.setup` (RTSPClient.js:240-294) settles.  `neverSettles`
records that neither `resolve` nor `reject` is ever invoked, so the
setup call stays pending forever. -/
inductive SetupOutcome where
  | resolved (source : List Char) (rtpPort rtcpPort : Int)
  | rejectNoTransport
  | rejectTransportParse (transport : List Char)
  | neverSettles
  deriving DecidableEq

/-- The continuation of `RTSPClient.setup` on the SETUP response
(RTSPClient.js:240-294).  `transportHeader` is
`response.headers['transport']` (`none` when absent);
`isLiteralAddress` is the external test
`ip.isV4Format(source) || ip.isV6Format(source)` of the `ip` package,
taken as an oracle; `dns` is the outcome of the `dns.resolve` call.  In
the DNS failure branch (RTSPClient.js:279-281) the source builds a
rejected promise and returns it from the callback — `resolve` and
`reject` of the wrapping promise are never called, so the outcome is
`neverSettles`. -/
def setupSettle (transportHeader : Option (List Char))
    (isLiteralAddress : List Char → Bool) (dns : DnsOutcome) : SetupOutcome :=
  match transportHeader with
  | none => .rejectNoTransport
  | some t =>
    if t.isEmpty then .rejectNoTransport
    else if transportTruthy (parseTransport t) then
      match parseTransport t with
      | (some src, some rtp, some rtcp) =>
        if isLiteralAddress src then .resolved src rtp rtcp
        else
          match dns with
          | .error => .neverSettles
          | .noAddresses => .neverSettles
          | .ok first _ => .resolved first rtp rtcp
      | _ => .rejectTransportParse t
    else .rejectTransportParse t

/-- The session identifier stored by `RTSPClient.onResponse`
(RTSPClient.js:132-135): `response.headers['session'].split(';')[0]`. -/
def sessionFromHeader (headerValue : List Char) : List Char :=
  match jsSplitOnChar ';' headerValue with
  | g :: _ => g
  | [] => []

/-- The request headers that `RTSPClient.makeRequest` manipulates
(RTSPClient.js:148-156).  An absent header is `none`. -/
structure Headers where
  authorization : Option (List Char) := none
  session : Option (List Char) := none
  cseq : Option Nat := none
  deriving DecidableEq

/-- The header mutation of `RTSPClient.makeRequest`
(RTSPClient.js:148-156): the sequence number is attached; if
`self.authenticator` is set, an `Authorization` header (whose value the
external `www-authenticate` package computes; `authenticator` here holds
that value) is attached; if `self.session` is truthy and the caller did
not set a `Session` header, the session is attached. -/
def makeRequestHeaders (authenticator : Option (List Char))
    (session : Option (List Char)) (cseq : Nat) (h : Headers) : Headers :=
  let h1 := { h with cseq := some cseq }
  let h2 :=
    match authenticator with
    | some a => { h1 with authorization := some a }
    | none => h1
  if jsTruthyStr session && !jsTruthyStr h2.session then { h2 with session := session }
  else h2

/-- What the `done` continuation of `RTSPClient.onResponse`
(RTSPClient.js:108-130) does with a completed response:
`rejectAuthError` is a rejection with `{type: 'authentication'}`,
`retryWithAuth` is `resolve(self.makeRequest(requestOptions))` — the
same logical request is re-issued (now that `self.authenticator` is
set, with an `Authorization` header) and the caller's promise adopts the
retried request's outcome — and `resolveNormal` resolves with the
response and its body. -/
inductive ResponseAction where
  | rejectAuthError
  | retryWithAuth
  | resolveNormal
  deriving DecidableEq

/-- The branch structure of the `done` continuation of
`RTSPClient.onResponse` (RTSPClient.js:115-129).
`hasAuthorizationHeader` is the truthiness of
`requestOptions.headers['Authorization']`, `hasChallengeHeader` that of
`response.headers['www-authenticate']`, and `authComputeFails` that of
`self.authenticate(...).err` — whether computing the authentication
state from the challenge failed. -/
def responseAction (statusCode : Nat)
    (hasAuthorizationHeader hasChallengeHeader authComputeFails : Bool) : ResponseAction :=
  if statusCode == 401 && !hasAuthorizationHeader && hasChallengeHeader then
    if authComputeFails then .rejectAuthError else .retryWithAuth
  else if (statusCode == 401 || statusCode == 403) && hasAuthorizationHeader then
    .rejectAuthError
  else .resolveNormal

/-- `delete self.requests[key]` (RTSPClient.js:90) on the pending-request
mapping, modelled as an association list keyed by CSeq. -/
def requestsDelete {ρ : Type} (key : Nat) (m : List (Nat × ρ)) : List (Nat × ρ) :=
  m.filter fun e => e.1 != key

/-- `RTSPClient.onError` (RTSPClient.js:82-94) without the trailing
`reconnect()` call: the loop walks every entry of the pending-request
mapping, calls `request.reject(err)` on it and deletes it.  (Entries are
only ever inserted as real objects, RTSPClient.js:159, so the `if(!request)
continue` guard never fires.)  Returns the mapping after the loop and
the list of `reject` calls made, in iteration order. -/
def rtspOnError {ρ ε : Type} (err : ε) (requests : List (Nat × ρ)) :
    List (Nat × ρ) × List (Nat × ε) :=
  (requests.foldl (fun m kv => requestsDelete kv.1 m) requests,
   requests.map fun kv => (kv.1, err))

theorem jsScaleRound_eq_floor (gain : ℚ) (divider : Nat) (hd : 0 < divider) (sum : Int) :
    jsScaleRound gain divider sum =
      Int.floor ((sum : ℚ) / (divider : ℚ) * gain + 1 / 2) := by
  have hden : (0 : ℚ) < (gain.den : ℚ) := by exact_mod_cast gain.pos
  have hdq : (0 : ℚ) < (divider : ℚ) := by exact_mod_cast hd
  have key : (sum : ℚ) / (divider : ℚ) * gain + 1 / 2 =
      ((2 * sum * gain.num + (divider : Int) * (gain.den : Int) : Int) : ℚ) /
        ((2 * divider * gain.den : ℕ) : ℚ) := by
    nth_rewrite 1 [← Rat.num_div_den gain]
    push_cast
    field_simp
    ring
  rw [key, Rat.floor_intCast_div_natCast]
  unfold jsScaleRound
  rw [Int.fdiv_eq_ediv _ (by positivity)]
  congr 1
theorem clip_bounds (x : Int) : -0x7fff ≤ clip x ∧ clip x ≤ 0x7fff := by
  unfold clip
  split_ifs <;> omega

theorem downsample_small (g : ℚ) (d : Nat) (s : List Int) (h : s.length < d) :
    downsample g d s = ([], s) := by
  unfold downsample
  rw [Nat.div_eq_of_lt h]
  rfl

theorem downsample_step (g : ℚ) (d : Nat) (s : List Int) (hd : 0 < d) (h : d ≤ s.length) :
    downsample g d s =
      (clip (jsScaleRound g d (chunkSum (s.take d))) :: (downsample g d (s.drop d)).1,
       (downsample g d (s.drop d)).2) := by
  unfold downsample
  rw [Nat.div_eq_sub_div hd h, List.length_drop]
  rfl

theorem downsample_chain (g : ℚ) (d : Nat) (hd : 0 < d) (xs ys : List Int) :
    downsample g d (xs ++ ys) =
      ((downsample g d xs).1 ++ (downsample g d ((downsample g d xs).2 ++ ys)).1,
       (downsample g d ((downsample g d xs).2 ++ ys)).2) := by
  by_cases h : xs.length < d
  · rw [downsample_small g d xs h]
    simp
  · push_neg at h
    rw [downsample_step g d xs hd h]
    rw [downsample_step g d (xs ++ ys) hd (by rw [List.length_append]; omega)]
    rw [List.take_append_of_le_length h, List.drop_append_of_le_length h]
    rw [downsample_chain g d hd (xs.drop d) ys]
    simp
termination_by xs.length
decreasing_by simp [List.length_drop]; omega

theorem downsampleGo_mem_clip (g : ℚ) (d : Nat) (n : Nat) (s : List Int) (x : Int)
    (hx : x ∈ (downsampleGo g d n s).1) : ∃ y, x = clip y := by
  induction n generalizing s with
  | zero => simp [downsampleGo] at hx
  | succ k ih =>
    have hstep : (downsampleGo g d (k + 1) s).1 =
        clip (jsScaleRound g d (chunkSum (s.take d))) :: (downsampleGo g d k (s.drop d)).1 := rfl
    rw [hstep] at hx
    rcases List.mem_cons.mp hx with h | h
    · exact ⟨_, h⟩
    · exact ih (s.drop d) h

/-- C6: resampling 16000 to 8000 with gain 1 on the samples
[100, 300, -100, 100] gives the pairwise averages [200, 0] and an
empty carry. -/
theorem resample_16k_to_8k_average_example :
    resample 1 [100, 300, -100, 100] 16000 8000 = .ok ([200, 0], some []) := by
  decide

/-- C9: every sample emitted by the downsampling path is clipped to
[-32767, 32767]; in particular -32768 is never produced. -/
theorem downsample_output_within_int16_bounds (g : ℚ) (d : Nat) (samples : List Int)
    (x : Int) (hx : x ∈ (downsample g d samples).1) :
    -0x7fff ≤ x ∧ x ≤ 0x7fff ∧ x ≠ -0x8000 := by
  unfold downsample at hx
  obtain ⟨y, rfl⟩ := downsampleGo_mem_clip g d (samples.length / d) samples x hx
  have hb := clip_bounds y
  exact ⟨hb.1, hb.2, by omega⟩

theorem downsample_output_within_int16_bounds_witness :
    -0x7fff ≤ (200 : Int) ∧ (200 : Int) ≤ 0x7fff ∧ (200 : Int) ≠ -0x8000 :=
  downsample_output_within_int16_bounds 1 2 [100, 300] 200 (by decide)

/-- C8: a non-integer rate ratio in either direction makes `resample`
throw immediately with no output, and an `audioDataInput` call hitting
it leaves the carry and the output frame buffer unchanged and emits
nothing. -/
theorem resample_uneven_ratio_throws (g : ℚ) (st : StreamState) (samples : List Int)
    (inR outR : Nat)
    (h : (outR < inR ∧ inR % outR ≠ 0) ∨ (inR < outR ∧ outR % inR ≠ 0)) :
    resample g samples inR outR = .error .unsupportedRate ∧
      (outR = 8000 → st.talkStreamSetup = true →
        audioDataInput g inR st samples = ⟨st, none, some .unsupportedRate⟩) := by
  have hres : ∀ l : List Int, resample g l inR outR = .error .unsupportedRate := by
    intro l
    unfold resample
    rcases h with ⟨h1, h2⟩ | ⟨h1, h2⟩
    · rw [if_pos h1, if_pos h2]
    · rw [if_neg (by omega), if_pos h1, if_pos h2]
  refine ⟨hres samples, ?_⟩
  rintro rfl htalk
  simp [audioDataInput, htalk, hres]

theorem resample_uneven_ratio_throws_witness :
    resample 1 [] 11025 8000 = .error .unsupportedRate ∧
      ((8000 : Nat) = 8000 → (⟨true, none, none⟩ : StreamState).talkStreamSetup = true →
        audioDataInput 1 11025 ⟨true, none, none⟩ [] =
          ⟨⟨true, none, none⟩, none, some .unsupportedRate⟩) :=
  resample_uneven_ratio_throws 1 ⟨true, none, none⟩ [] 11025 8000 (Or.inl (by decide))

/-- C7: at a downsampling ratio, resampling a chunk and then the carry
prepended to the next chunk produces the same output and final carry as
resampling the concatenation in one call. -/
theorem resample_chunking_composes (g : ℚ) (inR outR : Nat) (xs ys o1 c1 o2 c2 o c : List Int)
    (hrate : outR < inR) (hdvd : inR % outR = 0)
    (e1 : resample g xs inR outR = .ok (o1, some c1))
    (e2 : resample g (c1 ++ ys) inR outR = .ok (o2, some c2))
    (e3 : resample g (xs ++ ys) inR outR = .ok (o, some c)) :
    o1 ++ o2 = o ∧ c2 = c := by
  have houtR : 0 < outR := by
    rcases Nat.eq_zero_or_pos outR with h0 | h0
    · subst h0; simp at hdvd; omega
    · exact h0
  have hd : 0 < inR / outR := Nat.div_pos (le_of_lt hrate) houtR
  unfold resample at e1 e2 e3
  rw [if_pos hrate, if_neg (by simp [hdvd])] at e1 e2 e3
  simp only [Except.ok.injEq, Prod.mk.injEq, Option.some.injEq] at e1 e2 e3
  obtain ⟨ho1, hc1⟩ := e1
  obtain ⟨ho2, hc2⟩ := e2
  obtain ⟨ho, hc⟩ := e3
  subst ho1 hc1 ho2 hc2 ho hc
  refine ⟨?_, ?_⟩ <;> rw [downsample_chain g (inR / outR) hd xs ys]

theorem resample_chunking_composes_witness :
    [2] ++ [4] = ([2, 4] : List Int) ∧ ([] : List Int) = [] :=
  resample_chunking_composes 1 16000 8000 [1, 2, 3] [4] [2] [3] [4] [] [2, 4] []
    (by decide) (by decide) (by decide) (by decide) (by decide)

set_option maxRecDepth 100000 in
/-- C2 fails as stated: after this call the output frame buffer still
holds 960 bytes (480 samples), not fewer than 960 — the source emits at
most one frame per call (`if`, not `while`). -/
theorem audioDataInput_retains_full_frame_counterexample :
    ¬ (2 * (bufferList ((audioDataInput 1 8000 ⟨true, none, none⟩
        (List.replicate 960 0)).state.audioOutputBuffer)).length < 960) := by
  decide

/-- C2 amended: per call at most one frame is emitted; an emitted frame
is exactly 960 bytes; if the call neither throws nor emits, the output
buffer holds fewer than 960 bytes; an emitted frame plus the retained
remainder is exactly the old buffer plus the newly resampled bytes; and
stopping clears both buffers without emitting. -/
theorem audioDataInput_single_frame_per_call (g : ℚ) (inR : Nat) (st : StreamState)
    (samples : List Int) (htalk : st.talkStreamSetup = true) :
    (∀ f, (audioDataInput g inR st samples).emitted = some f → 2 * f.length = 960) ∧
    ((audioDataInput g inR st samples).thrown = none →
      (audioDataInput g inR st samples).emitted = none →
      2 * (bufferList (audioDataInput g inR st samples).state.audioOutputBuffer).length < 960) ∧
    (∀ f res carry,
      resample g (prependCarry st.audioBuffer samples) inR 8000 = .ok (res, carry) →
      (audioDataInput g inR st samples).emitted = some f →
      f ++ bufferList (audioDataInput g inR st samples).state.audioOutputBuffer =
        bufferList st.audioOutputBuffer ++ res) ∧
    ((stopStream st).1.audioBuffer = none ∧ (stopStream st).1.audioOutputBuffer = none ∧
      (stopStream st).2 = none) := by
  refine ?_
  cases hres : resample g (prependCarry st.audioBuffer samples) inR 8000 with
  | error e =>
    refine ⟨?_, ?_, ?_, rfl, rfl, rfl⟩ <;>
      simp [audioDataInput, htalk, hres]
  | ok rc =>
    obtain ⟨res, carry⟩ := rc
    have houtput : (audioDataInput g inR st samples) =
        (let output := bufferList st.audioOutputBuffer ++ res
        if output.length < frameSize then
          ⟨⟨st.talkStreamSetup, carry, some output⟩, none, none⟩
        else
          ⟨⟨st.talkStreamSetup, carry,
            if frameSize < output.length then some (output.drop frameSize) else none⟩,
            some (output.take frameSize), none⟩) := by
      cases hob : st.audioOutputBuffer <;>
        simp [audioDataInput, htalk, hres, bufferList, hob]
    set output := bufferList st.audioOutputBuffer ++ res with hout
    by_cases hlen : output.length < frameSize
    · rw [houtput]
      simp only [hlen, if_true, if_pos hlen]
      refine ⟨?_, ?_, ?_, rfl, rfl, rfl⟩
      · intro f hf; simp at hf
      · intro _ _
        simp only [bufferList]
        have : frameSize = 480 := rfl
        omega
      · intro f res2 carry2 h1 h2; simp at h2
    · rw [houtput]
      simp only [if_neg hlen]
      push_neg at hlen
      refine ⟨?_, ?_, ?_, rfl, rfl, rfl⟩
      · intro f hf
        simp only [Option.some.injEq] at hf
        subst hf
        rw [List.length_take]
        have : frameSize = 480 := rfl
        omega
      · intro _ h2; simp at h2
      · intro f res2 carry2 h1 h2
        simp only [Except.ok.injEq, Prod.mk.injEq] at h1
        obtain ⟨hr, _⟩ := h1
        subst hr
        simp only [Option.some.injEq] at h2
        subst h2
        by_cases hgt : frameSize < output.length
        · simp only [if_pos hgt, bufferList]
          rw [List.take_append_drop]
          exact hout
        · simp only [if_neg hgt, bufferList, List.append_nil]
          push_neg at hgt
          rw [List.take_of_length_le hgt]
          exact hout

theorem audioDataInput_single_frame_per_call_witness :
    (∀ f, (audioDataInput 1 8000 ⟨true, none, none⟩ (List.replicate 480 0)).emitted = some f →
      2 * f.length = 960) ∧
    ((audioDataInput 1 8000 ⟨true, none, none⟩ (List.replicate 480 0)).thrown = none →
      (audioDataInput 1 8000 ⟨true, none, none⟩ (List.replicate 480 0)).emitted = none →
      2 * (bufferList (audioDataInput 1 8000 ⟨true, none, none⟩
        (List.replicate 480 0)).state.audioOutputBuffer).length < 960) ∧
    (∀ f res carry,
      resample 1 (prependCarry none (List.replicate 480 0)) 8000 8000 = .ok (res, carry) →
      (audioDataInput 1 8000 ⟨true, none, none⟩ (List.replicate 480 0)).emitted = some f →
      f ++ bufferList (audioDataInput 1 8000 ⟨true, none, none⟩
        (List.replicate 480 0)).state.audioOutputBuffer =
        bufferList none ++ res) ∧
    ((stopStream ⟨true, none, none⟩).1.audioBuffer = none ∧
      (stopStream ⟨true, none, none⟩).1.audioOutputBuffer = none ∧
      (stopStream ⟨true, none, none⟩).2 = none) :=
  audioDataInput_single_frame_per_call 1 8000 ⟨true, none, none⟩ (List.replicate 480 0) rfl

theorem foldl_requestsDelete {ρ : Type} (l acc : List (Nat × ρ)) :
    l.foldl (fun m kv => requestsDelete kv.1 m) acc =
      acc.filter (fun e => l.all fun kv => kv.1 != e.1) := by
  induction l generalizing acc with
  | nil => simp [List.filter_eq_self]
  | cons kv l ih =>
    rw [List.foldl_cons, ih]
    unfold requestsDelete
    rw [List.filter_filter]
    congr 1
    funext e
    by_cases hk : e.1 = kv.1
    · simp [List.all_cons, hk, Bool.and_comm]
    · have h1 : (e.1 != kv.1) = true := by simp [bne_iff_ne]; exact hk
      have h2 : (kv.1 != e.1) = true := by simp [bne_iff_ne]; exact fun hh => hk hh.symm
      simp [List.all_cons, h1, h2]

theorem jsSplitOnChar_append_sep (a b : List Char) (ha : ';' ∉ a) :
    jsSplitOnChar ';' (a ++ ';' :: b) = a :: jsSplitOnChar ';' b := by
  induction a with
  | nil => simp [jsSplitOnChar]
  | cons c cs ih =>
    have hc : c ≠ ';' := fun hc => ha (hc ▸ List.mem_cons_self c cs)
    have hcs : ';' ∉ cs := fun hm => ha (List.mem_cons_of_mem c hm)
    have hstep : jsSplitOnChar ';' (c :: (cs ++ ';' :: b)) =
        (if c = ';' then [] :: jsSplitOnChar ';' (cs ++ ';' :: b)
         else
           match jsSplitOnChar ';' (cs ++ ';' :: b) with
           | g :: gs => (c :: g) :: gs
           | [] => [[c]]) := rfl
    show jsSplitOnChar ';' (c :: (cs ++ ';' :: b)) = (c :: cs) :: jsSplitOnChar ';' b
    rw [hstep, if_neg hc, ih hcs]

/-- C1: with a non-literal source and a DNS resolution that errors (or
returns no addresses), the setup promise never settles: the rejection
value is built but discarded inside the callback. -/
theorem setup_dns_failure_never_settles :
    setupSettle (some ("server_port=6970-6971;source=camera.example".toList))
      (fun _ => false) .error = .neverSettles ∧
    setupSettle (some ("server_port=6970-6971;source=camera.example".toList))
      (fun _ => false) .noAddresses = .neverSettles :=
  ⟨by decide, by decide⟩

/-- C3: an unauthorized response without prior authorization header and
with a well-formed challenge triggers exactly one transparent retry
(carrying an authorization header, since the authenticator is now set);
a malformed challenge rejects with the authentication error instead; a
request that already carried an authorization header is never retried. -/
theorem auth_challenge_retry_once :
    responseAction 401 false true false = .retryWithAuth ∧
    responseAction 401 false true true = .rejectAuthError ∧
    (∀ (s : Nat) (c f : Bool), responseAction s true c f ≠ .retryWithAuth) ∧
    (∀ (a : List Char) (sess : Option (List Char)) (cseq : Nat) (h : Headers),
      (makeRequestHeaders (some a) sess cseq h).authorization = some a) := by
  refine ⟨rfl, rfl, ?_, ?_⟩
  · intro s c f
    unfold responseAction
    have hcond : (s == 401 && !true && c) = false := by simp
    rw [hcond]
    simp only [Bool.false_eq_true, if_false]
    split <;> simp
  · intro a sess cseq h
    unfold makeRequestHeaders
    by_cases hc : (jsTruthyStr sess && !jsTruthyStr h.session) = true
    · simp [hc]
    · simp [hc]

/-- C5: a transport error rejects every pending request with that error
and leaves the pending mapping empty. -/
theorem onError_flushes_all_pending {ρ ε : Type} (err : ε) (requests : List (Nat × ρ)) :
    (rtspOnError err requests).1 = [] ∧
    (rtspOnError err requests).2.length = requests.length ∧
    (∀ k r, (k, r) ∈ requests → (k, err) ∈ (rtspOnError err requests).2) := by
  refine ⟨?_, by simp [rtspOnError], ?_⟩
  · show (requests.foldl (fun m kv => requestsDelete kv.1 m) requests) = []
    rw [foldl_requestsDelete]
    apply List.filter_eq_nil_iff.mpr
    intro a ha
    simp only [List.all_eq_true, Bool.not_eq_true]
    intro hall
    have := hall a ha
    simp at this
  · intro k r hkr
    exact List.mem_map.mpr ⟨(k, r), hkr, rfl⟩

theorem onError_flushes_all_pending_witness :
    (rtspOnError (0 : Nat) [((1 : Nat), (5 : Nat)), (2, 6)]).1 = [] ∧
    ((1 : Nat), (0 : Nat)) ∈ (rtspOnError (0 : Nat) [((1 : Nat), (5 : Nat)), (2, 6)]).2 :=
  ⟨(onError_flushes_all_pending 0 [(1, 5), (2, 6)]).1,
   (onError_flushes_all_pending 0 [(1, 5), (2, 6)]).2.2 1 5 (by decide)⟩

/-- C10: the stored session identifier is the prefix of the session
header before the first semicolon, and it is attached as the session
header of a later request that sets none. -/
theorem session_header_truncated_and_attached (a b : List Char) (ha : ';' ∉ a) (hne : a ≠ [])
    (auth : Option (List Char)) (cseq : Nat) (h : Headers) (hs : h.session = none) :
    sessionFromHeader (a ++ ';' :: b) = a ∧
    (makeRequestHeaders auth (some (sessionFromHeader (a ++ ';' :: b))) cseq h).session = some a := by
  have h1 : sessionFromHeader (a ++ ';' :: b) = a := by
    unfold sessionFromHeader
    rw [jsSplitOnChar_append_sep a b ha]
  refine ⟨h1, ?_⟩
  rw [h1]
  unfold makeRequestHeaders
  cases auth <;> simp [jsTruthyStr, hs, hne]

theorem session_header_truncated_and_attached_witness :
    sessionFromHeader ("ABCD".toList ++ ';' :: "timeout=60".toList) = "ABCD".toList ∧
    (makeRequestHeaders none (some (sessionFromHeader ("ABCD".toList ++ ';' :: "timeout=60".toList)))
      2 ⟨none, none, none⟩).session = some ("ABCD".toList) :=
  session_header_truncated_and_attached ("ABCD".toList) ("timeout=60".toList)
    (by decide) (by decide) none 2 ⟨none, none, none⟩ rfl

/-- C4 as stated fails at the empty transport string: source and
server_port cannot be determined from it, yet the setup call rejects
with the no-transport rejection (RTSPClient.js:245-246), not with the
transport-parse rejection carrying the raw string. -/
theorem transport_parse_empty_counterexample :
    transportTruthy (parseTransport []) = false ∧
    setupSettle (some []) (fun _ => false) .error = .rejectNoTransport ∧
    SetupOutcome.rejectNoTransport ≠ .rejectTransportParse [] := by
  refine ⟨by decide, by decide, by decide⟩

/-- C4 amended: "server_port=6970-6971;source=192.0.2.5" parses to
source 192.0.2.5, RTP port 6970 and RTCP port 6971; a single port
"server_port=6970" gives RTCP port equal to RTP port equal to 6970; and
every nonempty transport string from which the triple cannot be
determined makes setup reject with the transport-parse rejection
carrying the raw string. -/
theorem transport_parse_spec :
    parseTransport ("server_port=6970-6971;source=192.0.2.5".toList) =
      (some ("192.0.2.5".toList), some 6970, some 6971) ∧
    parseTransport ("server_port=6970".toList) = (none, some 6970, some 6970) ∧
    (∀ (t : List Char) (isLit : List Char → Bool) (dns : DnsOutcome),
      t ≠ [] → transportTruthy (parseTransport t) = false →
      setupSettle (some t) isLit dns = .rejectTransportParse t) := by
  refine ⟨by decide, by decide, ?_⟩
  intro t isLit dns hne htr
  cases t with
  | nil => exact absurd rfl hne
  | cons c cs => simp [setupSettle, htr]

/-- Witness for C4: a transport string with no determinable fields is
rejected as a transport-parse failure. -/
theorem transport_parse_spec_witness :
    setupSettle (some ("unicast".toList)) (fun _ => false) .error =
      .rejectTransportParse ("unicast".toList) :=
  transport_parse_spec.2.2 ("unicast".toList) (fun _ => false) .error (by decide) (by decide)
